import Mathlib

/-
Shallow embedding of the adlad-plugin-gamedistribution repository
(src/src/mod.js). The plugin adapts the GameDistribution SDK (a global
event callback plus a showAd primitive) to a promise-based contract.

Modelling conventions:
- Time is in milliseconds (Nat). The event loop is single threaded, so a
  run of an ad request is determined by (a) how the SDK showAd promise
  behaves (fulfill at time t, reject at time t with a value, or never
  settle) and (b) the timed list of SDK events delivered during the
  request. Events with a time strictly below a settlement time are
  processed before the awaiting code resumes; the code that runs after an
  await is synchronous, so no event interleaves with it.
- JS rejection values are either the literal string the SDK throws or an
  opaque non-string value; the source compares the caught value with the
  string sentinel using loose equality.
- The promise cell created during initialization is modelled by the
  fields hasResolver (the resolver variable has been assigned),
  initResolved (the promise is resolved) and initResolveCount (how many
  times the promise actually transitioned to resolved; resolving an
  already resolved promise is a no-op, which is promise semantics).
- Calling the resolver variable while it is still unassigned (the window
  between registering window.GD_OPTIONS and constructing the promise,
  during the await of the SDK import) throws a TypeError; the handler is
  therefore modelled in the Except monad.
-/

/-- A JavaScript value used as a rejection reason: either a string or an
opaque non-string value (Error objects and the like). -/
inductive JsValue where
  | str : String → JsValue
  | obj : Nat → JsValue
deriving DecidableEq

/-- The literal string sentinel the SDK rejects with, compared in the
source with loose equality. -/
def adRequestedTooSoon : String := "The advertisement was requested too soon."

/-- Loose equality test of a caught value against the sentinel string, as
in the source line if (e == "The advertisement was requested too soon."). -/
def jsEqSentinel : JsValue → Bool
  | .str s => s = adRequestedTooSoon
  | .obj _ => false

/-- The host context handed to the plugin (ctx in the source); its only
role here is identity plus the setNeedsPause and setNeedsMute channels,
whose effect is recorded in the flags below. -/
structure HostCtx where
  ctxId : Nat
deriving DecidableEq

/-- The whole mutable state of one plugin session: the module level
closure variables of gameDistributionPlugin plus the host visible
pause and mute flags set through the context. -/
structure PluginState where
  /-- window.GD_OPTIONS has been assigned (guard of the initialization
  routine and carrier of the event sink). -/
  gdOptionsSet : Bool
  /-- The gameId stored into window.GD_OPTIONS. -/
  storedGameId : Option String
  /-- How many times window.GD_OPTIONS (and with it the event sink) has
  been assigned. -/
  sinkRegistrations : Nat
  /-- The pluginContext closure variable. -/
  pluginContext : Option HostCtx
  /-- The resolver variable for the initialization promise has been
  assigned (it is assigned when the promise is constructed, after the
  await of the SDK import). -/
  hasResolver : Bool
  /-- The initialization promise is resolved. -/
  initResolved : Bool
  /-- How many times the initialization promise transitioned to
  resolved. -/
  initResolveCount : Nat
  /-- The rewardReceived closure variable. -/
  rewardReceived : Bool
  /-- The didShowAd closure variable (set by the IMPRESSION event). -/
  didShowAd : Bool
  /-- Host visible pause flag, last value passed to setNeedsPause. -/
  needsPause : Bool
  /-- Host visible mute flag, last value passed to setNeedsMute. -/
  needsMute : Bool
deriving DecidableEq

/-- The onEvent handler registered in window.GD_OPTIONS. Each branch
mirrors one string comparison of the source. The SDK_READY branch calls
the resolver variable: if it is still unassigned this throws a TypeError
(modelled as Except.error); otherwise it resolves the initialization
promise, a no-op when the promise is already resolved. -/
def onEvent (s : PluginState) (name : String) : Except String PluginState :=
  if name = "SDK_READY" then
    if s.hasResolver then
      Except.ok { s with
        initResolved := true,
        initResolveCount :=
          if s.initResolved then s.initResolveCount else s.initResolveCount + 1 }
    else
      Except.error "TypeError: resolveInitialize is not a function"
  else if name = "SDK_GAME_PAUSE" then
    Except.ok { s with needsPause := true, needsMute := true }
  else if name = "SDK_GAME_START" then
    Except.ok { s with needsMute := false, needsPause := false }
  else if name = "SDK_REWARDED_WATCH_COMPLETE" then
    Except.ok { s with rewardReceived := true }
  else if name = "IMPRESSION" then
    Except.ok { s with didShowAd := true }
  else
    Except.ok s

/-- Delivering one event to the session: on a handler throw the state is
unchanged (the SDK_READY branch throws before any assignment). -/
def applyEventTotal (s : PluginState) (name : String) : PluginState :=
  match onEvent s name with
  | .ok s2 => s2
  | .error _ => s

/-- Delivering a sequence of events one at a time. -/
def runEvents : PluginState → List String → PluginState
  | s, [] => s
  | s, e :: rest => runEvents (applyEventTotal s e) rest

/-- Delivering a sequence of timed events one at a time. -/
def runTimedEvents : PluginState → List (Nat × String) → PluginState
  | s, [] => s
  | s, e :: rest => runTimedEvents (applyEventTotal s e.2) rest

/-- The session state after processing exactly the events delivered
strictly before the given time. -/
def stateAt (s : PluginState) (es : List (Nat × String)) (cutoff : Nat) : PluginState :=
  runTimedEvents s (es.filter (fun e => e.1 < cutoff))

/-- The ShowFullScreenAdResult value shape: didShowAd plus an errorReason
that is null (none) on plain success. -/
structure AdResult where
  didShowAd : Bool
  errorReason : Option String
deriving DecidableEq

/-- How the SDK showAd promise behaves for one request: fulfill at time t,
reject at time t with a value (a synchronous throw is a rejection at time
zero), or never settle. -/
inductive SdkBehavior where
  | fulfill : Nat → SdkBehavior
  | reject : Nat → JsValue → SdkBehavior
  | never : SdkBehavior
deriving DecidableEq

/-- One ad request environment: the SDK promise behavior and the timed
events the SDK delivers. -/
structure AdScenario where
  sdk : SdkBehavior
  events : List (Nat × String)
deriving DecidableEq

/-- The 5000 ms timeout of safeShowAd. -/
def adTimeoutMs : Nat := 5000

/-- The pause and mute reset that safeShowAd performs after the race,
guarded by the pluginContext null check of the source. -/
def resetPauseMute (s : PluginState) : PluginState :=
  if s.pluginContext.isSome then { s with needsMute := false, needsPause := false } else s

/-- How one call to safeShowAd concludes: its promise fulfills at a time
with a result (none means the SDK call plainly succeeded), its promise
rejects at a time with a value, or it never settles. Each constructor
carries the session state at that point. -/
inductive CoordOutcome where
  | settled : Nat → Option AdResult → PluginState → CoordOutcome
  | thrown : Nat → JsValue → PluginState → CoordOutcome
  | unsettled : PluginState → CoordOutcome
deriving DecidableEq

/-- The safeShowAd coordinator of the source, as a function of the
request environment. It first clears didShowAd, then races the wrapped
SDK call against the 5000 ms timeout:
- SDK settles before the timeout: a sentinel rejection is normalized to
  the time-constraint result, any other rejection propagates (and then
  the reset after the race does not run), a fulfillment yields none.
- The timeout fires first: if didShowAd is still false it resolves the
  race with the unknown result; otherwise it does nothing and the race
  is decided by the SDK settlement, if any ever comes.
The pause and mute reset runs exactly on the paths where the awaited race
fulfills. -/
def safeShowAd (s0 : PluginState) (ty : String) (sc : AdScenario) : CoordOutcome :=
  let s1 := { s0 with didShowAd := false }
  match sc.sdk with
  | .fulfill t =>
    if t < adTimeoutMs then
      .settled t none (resetPauseMute (stateAt s1 sc.events t))
    else
      if (stateAt s1 sc.events adTimeoutMs).didShowAd then
        .settled t none (resetPauseMute (stateAt s1 sc.events t))
      else
        .settled adTimeoutMs (some ⟨false, some "unknown"⟩)
          (resetPauseMute (stateAt s1 sc.events adTimeoutMs))
  | .reject t v =>
    if t < adTimeoutMs then
      if jsEqSentinel v then
        .settled t (some ⟨false, some "time-constraint"⟩)
          (resetPauseMute (stateAt s1 sc.events t))
      else
        .thrown t v (stateAt s1 sc.events t)
    else
      if (stateAt s1 sc.events adTimeoutMs).didShowAd then
        if jsEqSentinel v then
          .settled t (some ⟨false, some "time-constraint"⟩)
            (resetPauseMute (stateAt s1 sc.events t))
        else
          .thrown t v (stateAt s1 sc.events t)
      else
        .settled adTimeoutMs (some ⟨false, some "unknown"⟩)
          (resetPauseMute (stateAt s1 sc.events adTimeoutMs))
  | .never =>
    if (stateAt s1 sc.events adTimeoutMs).didShowAd then
      .unsettled (runTimedEvents s1 sc.events)
    else
      .settled adTimeoutMs (some ⟨false, some "unknown"⟩)
        (resetPauseMute (stateAt s1 sc.events adTimeoutMs))

/-- How one public full screen or rewarded request concludes. -/
inductive ReqOutcome where
  | resolved : Nat → AdResult → PluginState → ReqOutcome
  | rejected : Nat → JsValue → PluginState → ReqOutcome
  | unsettled : PluginState → ReqOutcome
deriving DecidableEq

/-- showFullScreenAd of the source: delegate to safeShowAd with the
interstitial kind; a non null coordinator result is returned as is,
otherwise the result is built from the didShowAd flag with a null
errorReason. -/
def showFullScreenAd (s0 : PluginState) (sc : AdScenario) : ReqOutcome :=
  match safeShowAd s0 "interstitial" sc with
  | .settled t (some r) s => .resolved t r s
  | .settled t none s => .resolved t ⟨s.didShowAd, none⟩ s
  | .thrown t v s => .rejected t v s
  | .unsettled s => .unsettled s

/-- showRewardedAd of the source: clear rewardReceived, delegate to
safeShowAd with the rewarded kind; a non null coordinator result is
returned as is, otherwise the result is built from the rewardReceived
flag with a null errorReason. -/
def showRewardedAd (s0 : PluginState) (sc : AdScenario) : ReqOutcome :=
  match safeShowAd { s0 with rewardReceived := false } "rewarded" sc with
  | .settled t (some r) s => .resolved t r s
  | .settled t none s => .resolved t ⟨s.rewardReceived, none⟩ s
  | .thrown t v s => .rejected t v s
  | .unsettled s => .unsettled s

/-- One invocation of the SDK showAd primitive: the ad kind string and the
optional containerId of the display options argument. -/
structure GdShowCall where
  adType : String
  containerId : Option String
deriving DecidableEq

/-- showBannerAd of the source: a single fire and forget call of the SDK
showAd primitive with the display kind and the given container id; the
returned promise is ignored and no session state is touched. -/
def showBannerAd (s : PluginState) (id : String) : GdShowCall × PluginState :=
  (⟨"display", some id⟩, s)

/-- The duplicate initialization error message of the source. -/
def dupInitMessage : String := "GameDistribution plugin is being initialized more than once"

/-- The synchronous prefix of the initialization routine, up to its first
await: the window.GD_OPTIONS guard throws the duplicate error before any
mutation; otherwise pluginContext is stored and window.GD_OPTIONS is
assigned, registering the event sink. -/
def initCall (s : PluginState) (gameId : String) (ctx : HostCtx) :
    PluginState × Option String :=
  if s.gdOptionsSet then
    (s, some dupInitMessage)
  else
    ({ s with
        pluginContext := some ctx,
        gdOptionsSet := true,
        storedGameId := some gameId,
        sinkRegistrations := s.sinkRegistrations + 1 }, none)

/-- A session state after a completed initialization, used to instantiate
the universally quantified theorems at a concrete point. -/
def baseState : PluginState :=
  { gdOptionsSet := true
    storedGameId := some "gd-game"
    sinkRegistrations := 1
    pluginContext := some ⟨0⟩
    hasResolver := true
    initResolved := true
    initResolveCount := 1
    rewardReceived := false
    didShowAd := false
    needsPause := false
    needsMute := false }

/-
Helper lemmas about event delivery.
-/

/-- Delivering one event never changes the structural session fields
(options object, stored game id, registration count, context, resolver
presence). -/
theorem applyEventTotal_frame (s : PluginState) (e : String) :
    (applyEventTotal s e).gdOptionsSet = s.gdOptionsSet
    ∧ (applyEventTotal s e).storedGameId = s.storedGameId
    ∧ (applyEventTotal s e).sinkRegistrations = s.sinkRegistrations
    ∧ (applyEventTotal s e).pluginContext = s.pluginContext
    ∧ (applyEventTotal s e).hasResolver = s.hasResolver := by
  simp only [applyEventTotal, onEvent]
  split_ifs <;> simp

/-- Delivering one event updates didShowAd exactly as the IMPRESSION
branch prescribes. -/
theorem applyEventTotal_didShowAd (s : PluginState) (e : String) :
    (applyEventTotal s e).didShowAd = (s.didShowAd || e == "IMPRESSION") := by
  simp only [applyEventTotal, onEvent]
  split_ifs with h1 h2 h3 h4 h5 h6 <;> simp_all

/-- Delivering one event updates rewardReceived exactly as the
SDK_REWARDED_WATCH_COMPLETE branch prescribes. -/
theorem applyEventTotal_rewardReceived (s : PluginState) (e : String) :
    (applyEventTotal s e).rewardReceived
      = (s.rewardReceived || e == "SDK_REWARDED_WATCH_COMPLETE") := by
  simp only [applyEventTotal, onEvent]
  split_ifs with h1 h2 h3 h4 h5 h6 <;> simp_all

/-- Delivering one event updates the initialization promise exactly as
the SDK_READY branch prescribes. -/
theorem applyEventTotal_initResolved (s : PluginState) (e : String) :
    (applyEventTotal s e).initResolved
      = (s.initResolved || (s.hasResolver && e == "SDK_READY")) := by
  simp only [applyEventTotal, onEvent]
  split_ifs with h1 h2 h3 h4 h5 h6 <;> simp_all

/-- Delivering one event increments the resolve count exactly when the
event is SDK_READY, the resolver exists and the promise was not yet
resolved. -/
theorem applyEventTotal_initResolveCount (s : PluginState) (e : String) :
    (applyEventTotal s e).initResolveCount
      = (if e = "SDK_READY" ∧ s.hasResolver ∧ s.initResolved = false then
          s.initResolveCount + 1 else s.initResolveCount) := by
  simp only [applyEventTotal, onEvent]
  split_ifs with h1 h2 h3 h4 h5 h6 <;> simp_all

/-- Delivering a timed event sequence preserves the structural session
fields. -/
theorem runTimedEvents_frame (es : List (Nat × String)) (s : PluginState) :
    (runTimedEvents s es).pluginContext = s.pluginContext
    ∧ (runTimedEvents s es).gdOptionsSet = s.gdOptionsSet
    ∧ (runTimedEvents s es).sinkRegistrations = s.sinkRegistrations := by
  induction es generalizing s with
  | nil => simp [runTimedEvents]
  | cons e rest ih =>
    have h := applyEventTotal_frame s e.2
    simpa [runTimedEvents, h.1, h.2.1, h.2.2.1, h.2.2.2.1] using ih (applyEventTotal s e.2)

/-- The didShowAd flag after a timed event sequence: true exactly when it
was already true or some delivered event is IMPRESSION. -/
theorem runTimedEvents_didShowAd (es : List (Nat × String)) (s : PluginState) :
    (runTimedEvents s es).didShowAd
      = (s.didShowAd || es.any (fun e => e.2 == "IMPRESSION")) := by
  induction es generalizing s with
  | nil => simp [runTimedEvents]
  | cons e rest ih =>
    simp [runTimedEvents, ih (applyEventTotal s e.2), applyEventTotal_didShowAd,
      Bool.or_assoc]

/-- The rewardReceived flag after a timed event sequence: true exactly
when it was already true or some delivered event is
SDK_REWARDED_WATCH_COMPLETE. -/
theorem runTimedEvents_rewardReceived (es : List (Nat × String)) (s : PluginState) :
    (runTimedEvents s es).rewardReceived
      = (s.rewardReceived || es.any (fun e => e.2 == "SDK_REWARDED_WATCH_COMPLETE")) := by
  induction es generalizing s with
  | nil => simp [runTimedEvents]
  | cons e rest ih =>
    simp [runTimedEvents, ih (applyEventTotal s e.2), applyEventTotal_rewardReceived,
      Bool.or_assoc]

/-- The reset after the race forces both host flags to false whenever the
plugin context is present, and changes nothing else. -/
theorem resetPauseMute_flags (s : PluginState) (h : s.pluginContext.isSome = true) :
    (resetPauseMute s).needsPause = false ∧ (resetPauseMute s).needsMute = false
    ∧ (resetPauseMute s).didShowAd = s.didShowAd
    ∧ (resetPauseMute s).rewardReceived = s.rewardReceived := by
  simp [resetPauseMute, h]

/-- The reset never changes the didShowAd and rewardReceived flags. -/
theorem resetPauseMute_frame (s : PluginState) :
    (resetPauseMute s).didShowAd = s.didShowAd
    ∧ (resetPauseMute s).rewardReceived = s.rewardReceived := by
  by_cases h : s.pluginContext.isSome <;> simp [resetPauseMute, h]

/-- Event delivery never changes the stored plugin context. -/
theorem stateAt_pluginContext (s : PluginState) (es : List (Nat × String)) (c : Nat) :
    (stateAt s es c).pluginContext = s.pluginContext :=
  (runTimedEvents_frame _ _).1

/-- Every fulfilling conclusion of the coordinator carries the session
state reached at its settlement time, after the pause and mute reset. -/
theorem safeShowAd_settled_shape (s0 : PluginState) (ty : String) (sc : AdScenario)
    (t : Nat) (r : Option AdResult) (s : PluginState)
    (h : safeShowAd s0 ty sc = .settled t r s) :
    s = resetPauseMute (stateAt { s0 with didShowAd := false } sc.events t) := by
  cases hsdk : sc.sdk <;> simp only [safeShowAd, hsdk] at h <;>
    split_ifs at h <;>
    first
      | (rw [CoordOutcome.settled.injEq] at h
         obtain ⟨h1, h2, h3⟩ := h
         subst h1
         exact h3.symm)
      | simp at h

/-- A state used to instantiate theorems about sessions that have not yet
been initialized. -/
def freshState : PluginState :=
  { gdOptionsSet := false
    storedGameId := none
    sinkRegistrations := 0
    pluginContext := none
    hasResolver := false
    initResolved := false
    initResolveCount := 0
    rewardReceived := false
    didShowAd := false
    needsPause := false
    needsMute := false }

/-- C9: showBannerAd performs exactly one SDK showAd call with the
display kind and the given container identifier, returns no outcome, and
leaves the whole session state (didShowAd and rewardReceived flags
included) untouched; the call is independent of the session state, so it
bypasses the coordinator, its timeout and its pause and mute reset. -/
theorem showBannerAd_direct_call (s : PluginState) (id : String) :
    showBannerAd s id = (⟨"display", some id⟩, s) := rfl

/-- C4: a second initialization call on the same session fails with the
duplicate initialization error before any side effect: whenever the
options object is already present the call returns the state unchanged
(same stored context, same stored game id, same registration count), and
this applies in particular right after any successful first call. -/
theorem initCall_duplicate_rejected (s s1 : PluginState) (gid gid2 : String)
    (ctx ctx2 : HostCtx) :
    (s.gdOptionsSet = true → initCall s gid ctx = (s, some dupInitMessage))
    ∧ (initCall s gid ctx = (s1, none) → initCall s1 gid2 ctx2 = (s1, some dupInitMessage)) := by
  constructor
  · intro h
    simp [initCall, h]
  · intro h
    simp only [initCall] at h
    split_ifs at h with hg
    · simp [Prod.ext_iff] at h
    · have h1 : ({ s with
          pluginContext := some ctx,
          gdOptionsSet := true,
          storedGameId := some gid,
          sinkRegistrations := s.sinkRegistrations + 1 } : PluginState) = s1 :=
        congrArg Prod.fst h
      have h2 : s1.gdOptionsSet = true := by rw [← h1]
      simp [initCall, h2]

/-- Witness for C4 at a concrete fresh session: the first call succeeds
and the second call returns the duplicate error with the state unchanged. -/
theorem initCall_duplicate_rejected_witness :
    initCall { freshState with
        pluginContext := some ⟨0⟩,
        gdOptionsSet := true,
        storedGameId := some "g",
        sinkRegistrations := 1 } "h" ⟨1⟩
      = ({ freshState with
            pluginContext := some ⟨0⟩,
            gdOptionsSet := true,
            storedGameId := some "g",
            sinkRegistrations := 1 }, some dupInitMessage) :=
  (initCall_duplicate_rejected freshState _ "g" "h" ⟨0⟩ ⟨1⟩).2 rfl

/-- The initialization promise after an event sequence, when the resolver
exists: it is resolved exactly when some delivered event is SDK_READY,
and the number of effective resolutions grows by one exactly when the
promise was unresolved and some delivered event is SDK_READY. -/
theorem runEvents_ready (es : List String) (s : PluginState) (hr : s.hasResolver = true) :
    (runEvents s es).hasResolver = true
    ∧ (runEvents s es).initResolved = (s.initResolved || es.any (fun e => e == "SDK_READY"))
    ∧ (runEvents s es).initResolveCount =
        (if s.initResolved = true then s.initResolveCount
         else if es.any (fun e => e == "SDK_READY") then s.initResolveCount + 1
         else s.initResolveCount) := by
  induction es generalizing s with
  | nil => simp [runEvents, hr]
  | cons e rest ih =>
    have hfr := (applyEventTotal_frame s e).2.2.2.2
    have hres := applyEventTotal_initResolved s e
    have hcount := applyEventTotal_initResolveCount s e
    have hr2 : (applyEventTotal s e).hasResolver = true := by rw [hfr]; exact hr
    obtain ⟨ih1, ih2, ih3⟩ := ih (applyEventTotal s e) hr2
    refine ⟨ih1, ?_, ?_⟩
    · rw [runEvents, ih2, hres, hr]
      by_cases he : e = "SDK_READY" <;> simp [he, Bool.or_assoc]
    · rw [runEvents, ih3, hcount, hres, hr]
      by_cases he : e = "SDK_READY" <;>
        by_cases hrs : s.initResolved = true <;>
          simp [he, hrs]

/-- C3: over any sequence of events delivered to the registered handler
while initialization awaits its promise, the promise is resolved exactly
when an SDK_READY event was delivered (so it cannot resolve before the
first SDK_READY), and it transitions to resolved exactly once even when
SDK_READY is delivered several times; later SDK_READY events are no-ops. -/
theorem init_ready_resolves_exactly_once (s : PluginState) (es : List String)
    (hr : s.hasResolver = true) (h0 : s.initResolved = false)
    (hc : s.initResolveCount = 0) :
    ((runEvents s es).initResolved = true ↔ "SDK_READY" ∈ es)
    ∧ (runEvents s es).initResolveCount = (if "SDK_READY" ∈ es then 1 else 0) := by
  obtain ⟨-, h2, h3⟩ := runEvents_ready es s hr
  have hany : (es.any (fun e => e == "SDK_READY") = true) ↔ "SDK_READY" ∈ es := by
    simp [List.any_eq_true]
  constructor
  · rw [h2, h0]
    simp only [Bool.false_or]
    exact hany
  · rw [h3, h0, hc]
    by_cases hm : "SDK_READY" ∈ es
    · simp [hm, hany.mpr hm]
    · have hf : es.any (fun e => e == "SDK_READY") = false := by
        cases hb : es.any (fun e => e == "SDK_READY")
        · rfl
        · exact absurd (hany.mp hb) hm
      simp [hm, hf]

/-- Witness for C3 on a concrete sequence delivering SDK_READY twice
after an unrelated event. -/
theorem init_ready_resolves_exactly_once_witness :
    ((runEvents { baseState with initResolved := false, initResolveCount := 0 }
        ["SDK_GAME_PAUSE", "SDK_READY", "SDK_READY"]).initResolved = true
      ↔ "SDK_READY" ∈ ["SDK_GAME_PAUSE", "SDK_READY", "SDK_READY"])
    ∧ (runEvents { baseState with initResolved := false, initResolveCount := 0 }
        ["SDK_GAME_PAUSE", "SDK_READY", "SDK_READY"]).initResolveCount
      = (if "SDK_READY" ∈ ["SDK_GAME_PAUSE", "SDK_READY", "SDK_READY"] then 1 else 0) :=
  init_ready_resolves_exactly_once _ _ rfl rfl rfl

/-- Counterexample for C1: a request during which the SDK delivered
SDK_GAME_PAUSE and then rejected its showAd promise with an unclassified
value settles (by rejecting, at 200 ms) while the pause and mute flags
are still true — the reset does not run on the rethrow path, because the
await of the race throws before the reset line is reached. -/
theorem pauseMuteReset_skipped_on_thrown_cex :
    showFullScreenAd baseState ⟨.reject 200 (.obj 0), [(100, "SDK_GAME_PAUSE")]⟩
      = .rejected 200 (.obj 0)
          { baseState with needsPause := true, needsMute := true }
    ∧ ({ baseState with needsPause := true, needsMute := true } : PluginState).needsPause = true
    ∧ ({ baseState with needsPause := true, needsMute := true } : PluginState).needsMute = true := by
  exact ⟨rfl, rfl, rfl⟩

/-- C1 (amended): on every exit path where the full screen or rewarded
request resolves — the time-constraint path, the unknown-timeout path and
the plain success path — the pause and mute flags are forced back to
false before the promise settles; on the path where an unclassified SDK
rejection is rethrown to the host, the reset is skipped and the flags
keep whatever values the delivered events left them with. -/
theorem pauseMuteReset_on_resolved_paths (s0 : PluginState) (sc : AdScenario)
    (t : Nat) (r : AdResult) (s : PluginState)
    (hctx : s0.pluginContext.isSome = true) :
    (showFullScreenAd s0 sc = .resolved t r s →
      s.needsPause = false ∧ s.needsMute = false)
    ∧ (showRewardedAd s0 sc = .resolved t r s →
      s.needsPause = false ∧ s.needsMute = false) := by
  have key : ∀ s0b : PluginState, ∀ ty t2 r2 s2, s0b.pluginContext.isSome = true →
      safeShowAd s0b ty sc = .settled t2 r2 s2 →
      s2.needsPause = false ∧ s2.needsMute = false := by
    intro s0b ty t2 r2 s2 hcb h
    have hs := safeShowAd_settled_shape s0b ty sc t2 r2 s2 h
    have hpc : (stateAt { s0b with didShowAd := false } sc.events t2).pluginContext.isSome
        = true := by
      rw [stateAt_pluginContext]
      exact hcb
    rw [hs]
    exact ⟨(resetPauseMute_flags _ hpc).1, (resetPauseMute_flags _ hpc).2.1⟩
  constructor
  · intro h
    cases hco : safeShowAd s0 "interstitial" sc with
    | settled t2 r2 s2 =>
      cases r2 with
      | some rr =>
        simp only [showFullScreenAd, hco] at h
        rw [ReqOutcome.resolved.injEq] at h
        obtain ⟨-, -, h3⟩ := h
        rw [← h3]
        exact key s0 "interstitial" t2 (some rr) s2 hctx hco
      | none =>
        simp only [showFullScreenAd, hco] at h
        rw [ReqOutcome.resolved.injEq] at h
        obtain ⟨-, -, h3⟩ := h
        rw [← h3]
        exact key s0 "interstitial" t2 none s2 hctx hco
    | thrown t2 v s2 => simp [showFullScreenAd, hco] at h
    | unsettled s2 => simp [showFullScreenAd, hco] at h
  · intro h
    have hctx2 : ({ s0 with rewardReceived := false } : PluginState).pluginContext.isSome
        = true := hctx
    cases hco : safeShowAd { s0 with rewardReceived := false } "rewarded" sc with
    | settled t2 r2 s2 =>
      cases r2 with
      | some rr =>
        simp only [showRewardedAd, hco] at h
        rw [ReqOutcome.resolved.injEq] at h
        obtain ⟨-, -, h3⟩ := h
        rw [← h3]
        exact key _ "rewarded" t2 (some rr) s2 hctx2 hco
      | none =>
        simp only [showRewardedAd, hco] at h
        rw [ReqOutcome.resolved.injEq] at h
        obtain ⟨-, -, h3⟩ := h
        rw [← h3]
        exact key _ "rewarded" t2 none s2 hctx2 hco
    | thrown t2 v s2 => simp [showRewardedAd, hco] at h
    | unsettled s2 => simp [showRewardedAd, hco] at h

/-- Witness for amended C1 on a concrete plainly succeeding request. -/
theorem pauseMuteReset_on_resolved_paths_witness :
    baseState.needsPause = false ∧ baseState.needsMute = false :=
  (pauseMuteReset_on_resolved_paths baseState ⟨.fulfill 100, []⟩ 100 ⟨false, none⟩
    baseState rfl).1 rfl

/-- C2: for a rewarded request whose SDK promise never settles and during
which no IMPRESSION event is delivered, showRewardedAd resolves at the
5000 ms timeout with didShowAd false and the unknown error reason, and
both the pause and the mute flag are false afterwards — for every event
sequence without IMPRESSION, in particular ones delivering
SDK_GAME_PAUSE. -/
theorem rewarded_timeout_unknown_outcome (s0 : PluginState)
    (es : List (Nat × String)) (hctx : s0.pluginContext.isSome = true)
    (hni : ∀ e ∈ es, e.2 ≠ "IMPRESSION") :
    ∃ s, showRewardedAd s0 ⟨.never, es⟩
        = .resolved adTimeoutMs ⟨false, some "unknown"⟩ s
      ∧ s.needsPause = false ∧ s.needsMute = false ∧ adTimeoutMs = 5000 := by
  have hni2 : ((es.filter (fun e => e.1 < adTimeoutMs)).any
      (fun e => e.2 == "IMPRESSION")) = false := by
    rw [List.any_eq_false]
    intro e he
    have hmem := (List.mem_filter.mp he).1
    simp [hni e hmem]
  have hds : (stateAt { s0 with rewardReceived := false, didShowAd := false }
      es adTimeoutMs).didShowAd = false := by
    rw [stateAt, runTimedEvents_didShowAd, hni2]
    simp
  have hpc : (stateAt { s0 with rewardReceived := false, didShowAd := false }
      es adTimeoutMs).pluginContext.isSome = true := by
    rw [stateAt_pluginContext]
    exact hctx
  refine ⟨resetPauseMute (stateAt { s0 with rewardReceived := false, didShowAd := false }
      es adTimeoutMs), ?_, (resetPauseMute_flags _ hpc).1,
    (resetPauseMute_flags _ hpc).2.1, rfl⟩
  simp only [showRewardedAd, safeShowAd, hds]
  simp

/-- Witness for C2 with a GamePause event delivered mid request. -/
theorem rewarded_timeout_unknown_outcome_witness :
    ∃ s, showRewardedAd baseState ⟨.never, [(100, "SDK_GAME_PAUSE")]⟩
        = .resolved adTimeoutMs ⟨false, some "unknown"⟩ s
      ∧ s.needsPause = false ∧ s.needsMute = false ∧ adTimeoutMs = 5000 :=
  rewarded_timeout_unknown_outcome baseState [(100, "SDK_GAME_PAUSE")] rfl
    (by simp)

/-- Counterexample for C5: when the SDK promise rejects with the literal
sentinel only after the 5000 ms timeout has already resolved the race
(and no impression was seen), the request resolves with the unknown
reason, not the time-constraint reason — the losing rejection is
abandoned, so the normalization clause does not hold for every
rejection. -/
theorem reject_after_timeout_cex :
    showFullScreenAd baseState ⟨.reject 6000 (.str adRequestedTooSoon), []⟩
      = .resolved adTimeoutMs ⟨false, some "unknown"⟩ baseState
    ∧ (⟨false, some "unknown"⟩ : AdResult) ≠ (⟨false, some "time-constraint"⟩ : AdResult) := by
  exact ⟨rfl, by decide⟩

/-- C5 (amended): whenever the SDK settlement wins the race — it fails
synchronously, its promise rejects before the 5000 ms timeout, or the
timeout found the impression flag already set — a rejection equal to the
literal sentinel is normalized to the time-constraint result with no
exception escaping, and a rejection with any other value is rethrown
unchanged to the caller; a rejection that loses the race is abandoned and
the request resolves with the unknown reason instead. -/
theorem reject_normalization_when_race_won (s0 : PluginState) (ty : String)
    (es : List (Nat × String)) (t : Nat) (v : JsValue)
    (hwin : t < adTimeoutMs
      ∨ (stateAt { s0 with didShowAd := false } es adTimeoutMs).didShowAd = true) :
    (jsEqSentinel v = true →
      ∃ s, safeShowAd s0 ty ⟨.reject t v, es⟩
        = .settled t (some ⟨false, some "time-constraint"⟩) s)
    ∧ (jsEqSentinel v = false →
      ∃ s, safeShowAd s0 ty ⟨.reject t v, es⟩ = .thrown t v s) := by
  by_cases ht : t < adTimeoutMs
  · constructor
    · intro hv
      exact ⟨resetPauseMute (stateAt { s0 with didShowAd := false } es t),
        by simp [safeShowAd, ht, hv]⟩
    · intro hv
      exact ⟨stateAt { s0 with didShowAd := false } es t,
        by simp [safeShowAd, ht, hv]⟩
  · have himp := hwin.resolve_left ht
    constructor
    · intro hv
      exact ⟨resetPauseMute (stateAt { s0 with didShowAd := false } es t),
        by simp [safeShowAd, ht, himp, hv]⟩
    · intro hv
      exact ⟨stateAt { s0 with didShowAd := false } es t,
        by simp [safeShowAd, ht, himp, hv]⟩

/-- Witness for amended C5: a synchronous sentinel rejection is
normalized to the time-constraint result. -/
theorem reject_normalization_when_race_won_witness :
    ∃ s, safeShowAd baseState "interstitial"
        ⟨.reject 0 (.str adRequestedTooSoon), []⟩
      = .settled 0 (some ⟨false, some "time-constraint"⟩) s :=
  (reject_normalization_when_race_won baseState "interstitial" [] 0
    (.str adRequestedTooSoon) (Or.inl (by decide))).1 rfl

/-- C6: for a rewarded request whose SDK promise fulfills at time t,
when an SDK_REWARDED_WATCH_COMPLETE event was delivered before t and the
coordinator takes no early failure path, showRewardedAd resolves with
didShowAd true and a null error reason — keyed on the reward flag, for
any event sequence, whether or not it also contains IMPRESSION. -/
theorem rewarded_outcome_keyed_on_reward (s0 : PluginState)
    (es : List (Nat × String)) (t tr : Nat)
    (hmem : (tr, "SDK_REWARDED_WATCH_COMPLETE") ∈ es) (htr : tr < t)
    (hwin : t < adTimeoutMs
      ∨ (stateAt { s0 with rewardReceived := false, didShowAd := false }
          es adTimeoutMs).didShowAd = true) :
    ∃ s, showRewardedAd s0 ⟨.fulfill t, es⟩ = .resolved t ⟨true, none⟩ s := by
  have key : safeShowAd { s0 with rewardReceived := false } "rewarded" ⟨.fulfill t, es⟩
      = .settled t none (resetPauseMute
          (stateAt { s0 with rewardReceived := false, didShowAd := false } es t)) := by
    by_cases ht : t < adTimeoutMs
    · simp [safeShowAd, ht]
    · have himp := hwin.resolve_left ht
      simp [safeShowAd, ht, himp]
  have hrw : (resetPauseMute
      (stateAt { s0 with rewardReceived := false, didShowAd := false } es t)).rewardReceived
      = true := by
    rw [(resetPauseMute_frame _).2, stateAt, runTimedEvents_rewardReceived]
    have hany : ((es.filter (fun e => e.1 < t)).any
        (fun e => e.2 == "SDK_REWARDED_WATCH_COMPLETE")) = true :=
      List.any_eq_true.mpr ⟨(tr, "SDK_REWARDED_WATCH_COMPLETE"),
        List.mem_filter.mpr ⟨hmem, by simpa using htr⟩, by simp⟩
    simp [hany]
  refine ⟨resetPauseMute
    (stateAt { s0 with rewardReceived := false, didShowAd := false } es t), ?_⟩
  simp only [showRewardedAd, key]
  rw [ReqOutcome.resolved.injEq]
  exact ⟨rfl, by rw [hrw], rfl⟩

/-- Witness for C6 on a concrete request where the reward event fires at
10 ms and the SDK promise fulfills at 100 ms. -/
theorem rewarded_outcome_keyed_on_reward_witness :
    ∃ s, showRewardedAd baseState
        ⟨.fulfill 100, [(10, "SDK_REWARDED_WATCH_COMPLETE")]⟩
      = .resolved 100 ⟨true, none⟩ s :=
  rewarded_outcome_keyed_on_reward baseState [(10, "SDK_REWARDED_WATCH_COMPLETE")]
    100 10 (by simp) (by decide) (Or.inl (by decide))

/-- C7: every non null early result of the coordinator is a failure
outcome with didShowAd false and reason time-constraint or unknown; a
null coordinator result is the only success signal, and then the public
operations derive the final outcome from the current flags (the
impression flag for full screen, the reward flag for rewarded) with a
null error reason. -/
theorem coordinator_outcome_shape (s0 : PluginState) (sc : AdScenario)
    (t : Nat) (r : AdResult) (s : PluginState) :
    (∀ ty, safeShowAd s0 ty sc = .settled t (some r) s →
      r.didShowAd = false
      ∧ (r.errorReason = some "time-constraint" ∨ r.errorReason = some "unknown"))
    ∧ (safeShowAd s0 "interstitial" sc = .settled t none s →
      showFullScreenAd s0 sc = .resolved t ⟨s.didShowAd, none⟩ s)
    ∧ (safeShowAd { s0 with rewardReceived := false } "rewarded" sc = .settled t none s →
      showRewardedAd s0 sc = .resolved t ⟨s.rewardReceived, none⟩ s) := by
  refine ⟨?_, ?_, ?_⟩
  · intro ty h
    cases hsdk : sc.sdk <;> simp only [safeShowAd, hsdk] at h <;>
      split_ifs at h <;>
      first
        | (rw [CoordOutcome.settled.injEq] at h
           obtain ⟨-, h2, -⟩ := h
           rw [Option.some.injEq] at h2
           subst h2
           simp)
        | (rw [CoordOutcome.settled.injEq] at h
           obtain ⟨-, h2, -⟩ := h
           exact absurd h2 (by simp))
        | simp at h
  · intro h
    simp [showFullScreenAd, h]
  · intro h
    simp [showRewardedAd, h]

/-- Witness for C7 on a concrete plainly succeeding full screen request
with an impression at 50 ms. -/
theorem coordinator_outcome_shape_witness :
    showFullScreenAd baseState ⟨.fulfill 100, [(50, "IMPRESSION")]⟩
      = .resolved 100 ⟨true, none⟩ { baseState with didShowAd := true } :=
  (coordinator_outcome_shape baseState ⟨.fulfill 100, [(50, "IMPRESSION")]⟩
    100 ⟨false, none⟩ { baseState with didShowAd := true }).2.1 rfl

/-- The session state in the window between registering the event sink in
window.GD_OPTIONS and constructing the initialization promise, while the
SDK import is being awaited: the handler is live but the resolver
variable is still unassigned. -/
def midInitState : PluginState :=
  { gdOptionsSet := true
    storedGameId := some "gd-game"
    sinkRegistrations := 1
    pluginContext := some ⟨0⟩
    hasResolver := false
    initResolved := false
    initResolveCount := 0
    rewardReceived := false
    didShowAd := false
    needsPause := false
    needsMute := false }

/-- Counterexample for C8: in the session state reached between sink
registration and promise construction, an SDK_READY event makes the
registered handler throw (it calls the still unassigned resolver
variable), so the handler does not run to completion without throwing in
every session state. -/
theorem onEvent_ready_before_resolver_cex :
    onEvent midInitState "SDK_READY"
      = .error "TypeError: resolveInitialize is not a function" := rfl

/-- C8 (amended): the registered handler runs to completion without
throwing for every event whenever the initialization promise has been
created (and, for any state, for every event other than SDK_READY), and
every event whose name is outside the five recognized names leaves the
session state unchanged — it is ignored, not rejected; only SDK_READY
delivered while the resolver variable is still unassigned makes the
handler throw. -/
theorem onEvent_total_after_promise_created (s : PluginState) (name : String)
    (h : s.hasResolver = true ∨ name ≠ "SDK_READY") :
    ∃ s2, onEvent s name = .ok s2
      ∧ (name ∉ (["SDK_READY", "SDK_GAME_PAUSE", "SDK_GAME_START",
          "SDK_REWARDED_WATCH_COMPLETE", "IMPRESSION"] : List String) → s2 = s) := by
  simp only [onEvent]
  split_ifs with h1 h2 h3 h4 h5 h6 h7
  · exact ⟨_, rfl, fun hn => absurd (by simp [h1]) hn⟩
  · exact ⟨_, rfl, fun hn => absurd (by simp [h1]) hn⟩
  · exact absurd h1 (h.resolve_left h2)
  · exact ⟨_, rfl, fun hn => absurd (by simp [h4]) hn⟩
  · exact ⟨_, rfl, fun hn => absurd (by simp [h5]) hn⟩
  · exact ⟨_, rfl, fun hn => absurd (by simp [h6]) hn⟩
  · exact ⟨_, rfl, fun hn => absurd (by simp [h7]) hn⟩
  · exact ⟨s, rfl, fun _ => rfl⟩

/-- Witness for amended C8: an unrecognized event name is accepted and
leaves the session state unchanged. -/
theorem onEvent_total_after_promise_created_witness :
    ∃ s2, onEvent baseState "SDK_FUTURE_EVENT" = .ok s2
      ∧ ("SDK_FUTURE_EVENT" ∉ (["SDK_READY", "SDK_GAME_PAUSE", "SDK_GAME_START",
          "SDK_REWARDED_WATCH_COMPLETE", "IMPRESSION"] : List String) → s2 = baseState) :=
  onEvent_total_after_promise_created baseState "SDK_FUTURE_EVENT" (Or.inl rfl)

/-- C10: when the SDK showAd promise never settles but an IMPRESSION
event is delivered before the 5000 ms timeout, the timeout branch takes
no action, so neither showFullScreenAd nor showRewardedAd ever resolves:
the deadlock avoidance backstop only protects requests during which no
impression was observed. -/
theorem impression_then_hang_never_resolves (s0 : PluginState)
    (es : List (Nat × String)) (ti : Nat)
    (hmem : (ti, "IMPRESSION") ∈ es) (hti : ti < adTimeoutMs) :
    (∃ s, showFullScreenAd s0 ⟨.never, es⟩ = .unsettled s)
    ∧ (∃ s, showRewardedAd s0 ⟨.never, es⟩ = .unsettled s) := by
  have hany : ((es.filter (fun e => e.1 < adTimeoutMs)).any
      (fun e => e.2 == "IMPRESSION")) = true :=
    List.any_eq_true.mpr ⟨(ti, "IMPRESSION"),
      List.mem_filter.mpr ⟨hmem, by simpa using hti⟩, by simp⟩
  have himp : ∀ s1 : PluginState, (stateAt s1 es adTimeoutMs).didShowAd = true := by
    intro s1
    rw [stateAt, runTimedEvents_didShowAd, hany]
    simp
  constructor
  · exact ⟨runTimedEvents { s0 with didShowAd := false } es,
      by simp [showFullScreenAd, safeShowAd, himp]⟩
  · exact ⟨runTimedEvents { s0 with rewardReceived := false, didShowAd := false } es,
      by simp [showRewardedAd, safeShowAd, himp]⟩

/-- Witness for C10 with an impression delivered at 100 ms. -/
theorem impression_then_hang_never_resolves_witness :
    (∃ s, showFullScreenAd baseState ⟨.never, [(100, "IMPRESSION")]⟩ = .unsettled s)
    ∧ (∃ s, showRewardedAd baseState ⟨.never, [(100, "IMPRESSION")]⟩ = .unsettled s) :=
  impression_then_hang_never_resolves baseState [(100, "IMPRESSION")] 100
    (by simp) (by decide)
